import Mathlib

/-!
# Verification of the VLM-PathPlanner RRT core (`rrt_planner.py`, `multimodal_model.py`)

Shallow embedding of the sampling-based path planner. Python float arithmetic
is embedded as exact arithmetic: the planner loop, collision test and
nearest-neighbour search (which only add, subtract, multiply, divide and
compare) are embedded over `ℚ`; the sector sampler and the feedback fallback,
which call `cos`, `sin` and `arctan`, are embedded over `ℝ`.

Randomness (`np.random.uniform`, `np.random.choice`) is embedded by passing
the drawn values as explicit inputs: a planner run is parametrised by the
sequence of sampled points, and the sector sampler by the sequence of
(distance, angle-offset) draws.
-/

namespace RRTPlanner

/-- `Node` from `rrt_planner.py`: a tree node with coordinates and an optional
parent index (`parent_id`), `None` for the root. -/
structure Node where
  x : ℚ
  y : ℚ
  parent_id : Option ℕ
deriving DecidableEq, Repr, Inhabited

/-- An obstacle `(x, y, radius)` as stored in `ImprovedRRT.obstacles`. -/
abbrev Obstacle := ℚ × ℚ × ℚ

/-- One evaluation of the body of the collision loop in
`ImprovedRRT.is_collision_free`: the point `(px, py)` hits the obstacle
`(ox, oy, r)` when `np.sqrt((px-ox)**2 + (py-oy)**2) <= r`. Embedded exactly:
since `np.sqrt d ≥ 0`, the float test `sqrt d <= r` holds iff
`0 ≤ r ∧ d ≤ r^2`. -/
def pointHits (px py : ℚ) (o : Obstacle) : Bool :=
  decide (0 ≤ o.2.2 ∧ (px - o.1)^2 + (py - o.2.1)^2 ≤ o.2.2^2)

/-- The `k`-th of the ten sample points `np.linspace(0, 1, 10)` places on the
segment from `(x1, y1)` to `(x2, y2)`: parameter value `k/9`. -/
def segPoint (x1 y1 x2 y2 : ℚ) (k : ℕ) : ℚ × ℚ :=
  (x1 + (x2 - x1) * ((k : ℚ) / 9), y1 + (y2 - y1) * ((k : ℚ) / 9))

/-- The ten sample points on the segment from `(x1, y1)` to `(x2, y2)`:
parameter values `k/9` for `k = 0, …, 9` (both endpoints included). -/
def segPoints (x1 y1 x2 y2 : ℚ) : List (ℚ × ℚ) :=
  (List.range 10).map (segPoint x1 y1 x2 y2)

/-- `ImprovedRRT.is_collision_free`: for every obstacle, none of the ten
sample points on the segment lies within the obstacle's radius. The Python
code returns `False` on the first hit; the result equals this conjunction. -/
def is_collision_free (obstacles : List Obstacle) (x1 y1 x2 y2 : ℚ) : Bool :=
  obstacles.all (fun o => (segPoints x1 y1 x2 y2).all (fun p => !(pointHits p.1 p.2 o)))

/-- Squared Euclidean distance from a node to a point, as computed in
`ImprovedRRT.find_nearest_node`. -/
def sqDist (n : Node) (p : ℚ × ℚ) : ℚ :=
  (n.x - p.1)^2 + (n.y - p.2)^2

/-- `np.argmin` over the distance list of `find_nearest_node`: the first index
achieving the minimum squared distance. -/
def nearestIdx (nodes : List Node) (p : ℚ × ℚ) : ℕ :=
  (List.range nodes.length).foldl
    (fun best i =>
      if sqDist (nodes.getD i default) p < sqDist (nodes.getD best default) p then i else best)
    0

/-- `ImprovedRRT.find_nearest_node`: the node at the argmin index. -/
def find_nearest_node (nodes : List Node) (p : ℚ × ℚ) : Node :=
  nodes.getD (nearestIdx nodes p) default

/-- The mutable planner state of one `ImprovedRRT.plan` run: the node list
`self.nodes`, and whether the loop has already returned successfully (the
Python loop returns from inside the iteration; a `true` flag marks that no
further iterations run). -/
structure PlanState where
  nodes : List Node
  success : Bool
deriving DecidableEq, Repr

/-- The initial planner state built by `ImprovedRRT.__init__`:
`self.nodes = [self.start]`, where the start node has no parent. -/
def initState (start : ℚ × ℚ) : PlanState :=
  ⟨[⟨start.1, start.2, none⟩], false⟩

/-- One iteration of the loop body of `ImprovedRRT.plan`, with the sampled
point `p` passed in as an input (it is drawn randomly in the code; which
sampling branch produced it does not affect the rest of the iteration).
Mirrors lines 90–109 of `rrt_planner.py`:

* find the nearest node to `p`;
* if the segment from the nearest node to `p` is collision free, append
  `Node(p.x, p.y, len(self.nodes) - 1)` — note the parent is the index of the
  *last* node before the append, exactly as the code computes it;
* if additionally the segment from `p` to the goal is collision free, set
  `self.goal.parent_id = len(self.nodes) - 1` (the new node's index) and
  append the goal node, then return (success). -/
def planStep (obstacles : List Obstacle) (goal : ℚ × ℚ) (s : PlanState)
    (p : ℚ × ℚ) : PlanState :=
  if s.success then s
  else
    let nearest := find_nearest_node s.nodes p
    if is_collision_free obstacles nearest.x nearest.y p.1 p.2 then
      let nodes' := s.nodes ++ [⟨p.1, p.2, some (s.nodes.length - 1)⟩]
      if is_collision_free obstacles p.1 p.2 goal.1 goal.2 then
        ⟨nodes' ++ [⟨goal.1, goal.2, some (nodes'.length - 1)⟩], true⟩
      else
        ⟨nodes', false⟩
    else s

/-- The planner states reachable by the loop of `ImprovedRRT.plan` from the
freshly constructed planner, over all possible sequences of sampled points. -/
inductive Reachable (obstacles : List Obstacle) (start goal : ℚ × ℚ) :
    PlanState → Prop
  | init : Reachable obstacles start goal (initState start)
  | step (s : PlanState) (p : ℚ × ℚ) :
      Reachable obstacles start goal s →
      Reachable obstacles start goal (planStep obstacles goal s p)

/-- The parent-chain walk of `ImprovedRRT.extract_path`
(`while current_node.parent_id is not None`), with explicit fuel; `none`
models a walk that would still be running after `fuel` steps (the Python
`while` loop has no bound and would cycle forever on a corrupt tree). -/
def walkParents (nodes : List Node) : ℕ → Node → Option (List Node)
  | 0, _ => none
  | fuel + 1, cur =>
    match cur.parent_id with
    | none => some []
    | some p => (walkParents nodes fuel (nodes.getD p default)).map (cur :: ·)

/-- `ImprovedRRT.extract_path`: walk parents from the last node (the goal),
append the start node, reverse. Fuel `nodes.length` suffices on any tree
whose parent indices strictly decrease. -/
def extract_path (nodes : List Node) (start : Node) : Option (List Node) :=
  (walkParents nodes nodes.length (nodes.getD (nodes.length - 1) default)).map
    (fun w => (w ++ [start]).reverse)

/-! ## A concrete planner run

Start `(0,0)`, goal `(10,0)`, two small obstacles of radius `1/10` at
`(40/9, 50/9)` and `(4/9, 50/9)`, sampled points `(0,10)` then `(1,0)`.

* Iteration 1: nearest node to `(0,10)` is the start; the segment is clear of
  both obstacles, so node 1 `(0,10)` is appended with parent 0; the segment
  `(0,10) → (10,0)` passes through the first obstacle (its sample point at
  `t = 4/9` is the obstacle's centre), so the goal is not connected.
* Iteration 2: the nearest node to `(1,0)` is node 0 (squared distance 1
  versus 101), and the segment `(0,0) → (1,0)` is collision free, so a node is
  appended — but the code gives it parent index `len(nodes) - 1 = 1`, not the
  nearest node's index 0. The segment `(1,0) → (10,0)` is clear, so the goal
  is appended and planning succeeds. The stored parent edge
  `(0,10) → (1,0)` passes through the second obstacle (its sample point at
  `t = 4/9` is `(4/9, 50/9)`, the obstacle's centre) and was never
  collision-checked. -/

def exObs : List Obstacle := [(40/9, 50/9, 1/10), (4/9, 50/9, 1/10)]

/-- State after the first iteration of the run described above. -/
def exS1 : PlanState := planStep exObs (10, 0) (initState (0, 0)) (0, 10)

/-- State after the second iteration: planning has succeeded. -/
def exS2 : PlanState := planStep exObs (10, 0) exS1 (1, 0)

/-- The tree invariant stated by the spec (§3, "Tree"): the tree is non-empty,
index 0 holds the start node (which has no parent), and every later node's
`parent_id` references a strictly earlier index. -/
def TreeInv (start : ℚ × ℚ) (nodes : List Node) : Prop :=
  0 < nodes.length ∧
  nodes.getD 0 default = ⟨start.1, start.2, none⟩ ∧
  ∀ i, 0 < i → i < nodes.length →
    ∃ p, (nodes.getD i default).parent_id = some p ∧ p < i

/-- `SectorConfig` from `rrt_planner.py`: a sampling sector with a centre
angle, a span angle and a priority. -/
structure SectorConfig where
  center_angle : ℝ
  span_angle : ℝ
  priority : ℝ

/-- The full object state built by `ImprovedRRT.__init__`
(`rrt_planner.py` lines 19–32): every parameter is stored as given; the node
list starts as `[self.start]` and the sector list as `[]`. The constructor
performs no other computation. -/
structure ImprovedRRT where
  start : Node
  goal : Node
  bounds : ℚ × ℚ × ℚ × ℚ
  obstacles : List Obstacle
  step_size : ℚ
  max_iterations : ℕ
  nodes : List Node
  current_sectors : List SectorConfig

/-- `ImprovedRRT.__init__`: stores the parameters and initialises
`self.nodes = [self.start]`, `self.current_sectors = []`. There is no
validation code, so construction is a total function. -/
def ImprovedRRT.init (start goal : ℚ × ℚ) (bounds : ℚ × ℚ × ℚ × ℚ)
    (obstacles : List Obstacle) (step_size : ℚ) (max_iterations : ℕ) :
    ImprovedRRT :=
  { start := ⟨start.1, start.2, none⟩
    goal := ⟨goal.1, goal.2, none⟩
    bounds := bounds
    obstacles := obstacles
    step_size := step_size
    max_iterations := max_iterations
    nodes := [⟨start.1, start.2, none⟩]
    current_sectors := [] }

/-- The validation predicate the spec's words (§6) require of construction,
with `bounds = (x_min, y_min, x_max, y_max)`: construction must fail with
`InvalidConfiguration` exactly when this holds. Stated from the spec for
comparison with `ImprovedRRT.init`, which never fails. -/
def specInvalidConfiguration (start goal : ℚ × ℚ) (bounds : ℚ × ℚ × ℚ × ℚ)
    (step_size : ℚ) (max_iterations : ℕ) : Prop :=
  bounds.2.2.1 ≤ bounds.1 ∨ bounds.2.2.2 ≤ bounds.2.1 ∨
  step_size ≤ 0 ∨ max_iterations = 0 ∨
  ¬ (bounds.1 ≤ start.1 ∧ start.1 ≤ bounds.2.2.1 ∧
     bounds.2.1 ≤ start.2 ∧ start.2 ≤ bounds.2.2.2) ∨
  ¬ (bounds.1 ≤ goal.1 ∧ goal.1 ≤ bounds.2.2.1 ∧
     bounds.2.1 ≤ goal.2 ∧ goal.2 ≤ bounds.2.2.2)

instance (start goal : ℚ × ℚ) (bounds : ℚ × ℚ × ℚ × ℚ) (step_size : ℚ)
    (max_iterations : ℕ) :
    Decidable (specInvalidConfiguration start goal bounds step_size max_iterations) := by
  unfold specInvalidConfiguration; infer_instance

/-- Cumulative-weight search implementing the draw of
`np.random.choice(sectors, p = weights / total)` at the uniform variate
`r ∈ [0, 1)`: the first sector whose normalized weight bracket contains `r`. -/
noncomputable def pickWeighted : List SectorConfig → ℝ → ℝ → Option SectorConfig
  | [], _, _ => none
  | c :: rest, total, r =>
    if r < c.priority / total then some c
    else pickWeighted rest total (r - c.priority / total)

/-- The sector-selection step of `ImprovedRRT.plan` (lines 79–82):
`weights = [s.priority for s in sectors]` and
`np.random.choice(sectors, p = weights / np.sum(weights))`, with the uniform
variate `r` passed explicitly. When `np.sum(weights) = 0` the division
produces NaN probabilities and `np.random.choice` raises `ValueError`;
the raise is embedded as `none`. -/
noncomputable def select_sector (sectors : List SectorConfig) (r : ℝ) :
    Option SectorConfig :=
  let total := (sectors.map SectorConfig.priority).sum
  if total = 0 then none
  else pickWeighted sectors total r

/-- One draw of the body of the `while True` loop of
`ImprovedRRT.sample_in_sector` (lines 38–45): with `distance = d` and
`angle = sector.center_angle + u` where `u ~ Uniform(-span/2, span/2)`, the
candidate point is `origin + distance · (cos angle, sin angle)`. The angle is
passed to `np.cos`/`np.sin` exactly as drawn: the code contains no
degree-to-radian conversion. -/
noncomputable def sampleCandidate (origin : ℝ × ℝ) (sector : SectorConfig)
    (d u : ℝ) : ℝ × ℝ :=
  (origin.1 + d * Real.cos (sector.center_angle + u),
   origin.2 + d * Real.sin (sector.center_angle + u))

/-- The candidate formula as the spec's words state it (§4.2): the drawn
angle is in degrees and is converted to radians before `cos`/`sin`. Stated
from the spec, for comparison with `sampleCandidate`. -/
noncomputable def specSampleCandidate (origin : ℝ × ℝ) (sector : SectorConfig)
    (d u : ℝ) : ℝ × ℝ :=
  (origin.1 + d * Real.cos ((sector.center_angle + u) * Real.pi / 180),
   origin.2 + d * Real.sin ((sector.center_angle + u) * Real.pi / 180))

/-- Membership in `self.bounds = (x_min, y_min, x_max, y_max)` as tested on
lines 48–49 of `rrt_planner.py` (all comparisons inclusive). -/
def inBounds (bounds : ℝ × ℝ × ℝ × ℝ) (p : ℝ × ℝ) : Prop :=
  bounds.1 ≤ p.1 ∧ p.1 ≤ bounds.2.2.1 ∧ bounds.2.1 ≤ p.2 ∧ p.2 ≤ bounds.2.2.2

noncomputable instance (bounds : ℝ × ℝ × ℝ × ℝ) (p : ℝ × ℝ) :
    Decidable (inBounds bounds p) := by
  unfold inBounds; infer_instance

/-- `ImprovedRRT.sample_in_sector`: rejection sampling around the origin
(`self.nodes[-1]`), redrawing until the candidate lies within bounds. The
random draws are passed as an explicit list of `(distance, angle-offset)`
pairs; `none` models a run of draws that never terminates the `while True`
loop within the given sequence. -/
noncomputable def sample_in_sector (bounds : ℝ × ℝ × ℝ × ℝ) (origin : ℝ × ℝ)
    (sector : SectorConfig) : List (ℝ × ℝ) → Option (ℝ × ℝ)
  | [] => none
  | (d, u) :: draws =>
    let p := sampleCandidate origin sector d u
    if inBounds bounds p then some p
    else sample_in_sector bounds origin sector draws

/-- `np.arctan2 y x`: the angle of the point `(x, y)`, in `(-π, π]`, with
`arctan2 0 0 = 0`. -/
noncomputable def arctan2 (y x : ℝ) : ℝ :=
  if 0 < x then Real.arctan (y / x)
  else if x < 0 then
    (if 0 ≤ y then Real.arctan (y / x) + Real.pi else Real.arctan (y / x) - Real.pi)
  else
    (if 0 < y then Real.pi / 2 else if y < 0 then -(Real.pi / 2) else 0)

/-- `np.degrees`: radians to degrees. -/
noncomputable def degreesOf (r : ℝ) : ℝ := r * 180 / Real.pi

/-- `MultiModalInteraction.get_feedback` (`multimodal_model.py` lines
137–160), with the outcome of the `try` block (HTTP call, response parsing)
passed as an input: `some sectors` when the call succeeded and its payload
parsed into a sector list, `none` when any exception was raised. The
`except` branch logs and returns a single default sector whose centre angle
is `np.degrees(np.arctan2(goal.y - current.y, goal.x - current.x))` — the
bearing from the current node to the goal in degrees — with span 45 and
priority 0.8. -/
noncomputable def get_feedback (apiResult : Option (List SectorConfig))
    (current goal : Node) : List SectorConfig :=
  match apiResult with
  | some sectors => sectors
  | none =>
      [{ center_angle :=
           degreesOf (arctan2 ((goal.y : ℝ) - (current.y : ℝ))
             ((goal.x : ℝ) - (current.x : ℝ)))
         span_angle := 45
         priority := 0.8 }]

/-! ## Theorems -/

/-- Claim C1: refuted on the code (the code itself is at fault). In the
concrete run `exS1 → exS2` the extension at the second iteration succeeds:
the nearest tree node to the sampled point `(1, 0)` is the node at index 0,
the segment from it to the sample is collision free, and a node is appended —
but the appended node carries `parent_id = some 1`, because line 97 of
`rrt_planner.py` stores `len(self.nodes) - 1` (the index of the most recently
appended node), not the index of the node returned by the nearest-neighbour
lookup. -/
theorem extension_parent_is_last_not_nearest :
    nearestIdx exS1.nodes (1, 0) = 0 ∧
    is_collision_free exObs 0 0 1 0 = true ∧
    (planStep exObs (10, 0) exS1 (1, 0)).nodes.getD 2 default = ⟨1, 0, some 1⟩ := by
  with_unfolding_all decide

/-- Claim C2: refuted on the code (the code itself is at fault). The state
`exS2` is reachable by the planner loop, its node 2 `(1, 0)` has parent
index 1, yet the segment from node 1 `(0, 10)` to node 2 `(1, 0)` is not
collision free: the collision check on line 94 ran from the *nearest* node
`(0, 0)`, while the stored parent edge starts at the *last* node `(0, 10)`
and was never checked. -/
theorem reachable_state_violates_edge_invariant :
    Reachable exObs (0, 0) (10, 0) exS2 ∧
    exS2.nodes.getD 1 default = ⟨0, 10, some 0⟩ ∧
    exS2.nodes.getD 2 default = ⟨1, 0, some 1⟩ ∧
    is_collision_free exObs 0 10 1 0 = false := by
  refine ⟨?_, by with_unfolding_all decide, by with_unfolding_all decide,
    by with_unfolding_all decide⟩
  exact Reachable.step _ _ (Reachable.step _ _ Reachable.init)

/-- Claim C3: refuted on the code (the code itself is at fault). The run
reaching `exS2` succeeds, and the extracted path does start at the configured
start `(0, 0)` and end at the configured goal `(10, 0)` — but its consecutive
pair `(0, 10) → (1, 0)` is not collision free, because that pair is the
never-checked parent edge of claim C2. -/
theorem success_path_has_colliding_pair :
    Reachable exObs (0, 0) (10, 0) exS2 ∧
    exS2.success = true ∧
    extract_path exS2.nodes ⟨0, 0, none⟩ =
      some [⟨0, 0, none⟩, ⟨0, 10, some 0⟩, ⟨1, 0, some 1⟩, ⟨10, 0, some 2⟩] ∧
    is_collision_free exObs 0 10 1 0 = false := by
  refine ⟨?_, by with_unfolding_all decide, by with_unfolding_all decide,
    by with_unfolding_all decide⟩
  exact Reachable.step _ _ (Reachable.step _ _ Reachable.init)

/-- Claim C6, counterexample: a parameter assignment the spec requires
construction to reject on every count — degenerate bounds `(5, 5, 1, 1)`,
step size `-1`, iteration budget `0`, start `(99, 99)` and goal `(-99, -99)`
outside bounds — on which `ImprovedRRT.__init__` nevertheless succeeds and
builds the normal initial planner object. -/
theorem init_accepts_invalid_configuration :
    specInvalidConfiguration (99, 99) (-99, -99) (5, 5, 1, 1) (-1) 0 ∧
    (ImprovedRRT.init (99, 99) (-99, -99) (5, 5, 1, 1) [] (-1) 0).nodes
      = [⟨99, 99, none⟩] ∧
    (ImprovedRRT.init (99, 99) (-99, -99) (5, 5, 1, 1) [] (-1) 0).current_sectors
      = [] := by
  exact ⟨by decide, rfl, rfl⟩

/-- Claim C6, amended: construction performs no validation at all — for every
parameter assignment, valid or not, `__init__` succeeds, stores the
parameters unchanged, and initialises the tree to exactly the start node
with an empty sector list. -/
theorem init_is_total_and_stores_parameters (start goal : ℚ × ℚ)
    (bounds : ℚ × ℚ × ℚ × ℚ) (obstacles : List Obstacle) (step_size : ℚ)
    (max_iterations : ℕ) :
    (ImprovedRRT.init start goal bounds obstacles step_size max_iterations).nodes
        = [⟨start.1, start.2, none⟩] ∧
    (ImprovedRRT.init start goal bounds obstacles step_size max_iterations).bounds
        = bounds ∧
    (ImprovedRRT.init start goal bounds obstacles step_size max_iterations).obstacles
        = obstacles ∧
    (ImprovedRRT.init start goal bounds obstacles step_size max_iterations).step_size
        = step_size ∧
    (ImprovedRRT.init start goal bounds obstacles step_size max_iterations).max_iterations
        = max_iterations ∧
    (ImprovedRRT.init start goal bounds obstacles step_size max_iterations).current_sectors
        = [] :=
  ⟨rfl, rfl, rfl, rfl, rfl, rfl⟩

/-- Claim C5, counterexample: the default sector substituted when the
feedback call fails has priority `0.8`, not `1.0` as the claim states. -/
theorem default_sector_priority_is_not_one :
    (get_feedback none ⟨0, 0, none⟩ ⟨1, 1, none⟩).map SectorConfig.priority
      = [0.8] ∧ (0.8 : ℝ) ≠ 1 := by
  refine ⟨rfl, by norm_num⟩

/-- Claim C5, amended: whenever the external feedback call fails or its
content does not parse, `get_feedback` substitutes exactly one default
sector, centred on the bearing (in degrees) from the current frontier node
to the goal, with span 45 and priority `0.8`; the exception is caught, so
planning continues. -/
theorem feedback_failure_yields_default_sector (current goal : Node) :
    (get_feedback none current goal).length = 1 ∧
    (get_feedback none current goal).map SectorConfig.center_angle
      = [degreesOf (arctan2 ((goal.y : ℝ) - (current.y : ℝ))
          ((goal.x : ℝ) - (current.x : ℝ)))] ∧
    (get_feedback none current goal).map SectorConfig.span_angle = [45] ∧
    (get_feedback none current goal).map SectorConfig.priority = [0.8] :=
  ⟨rfl, rfl, rfl, rfl⟩

/-- Claim C7, counterexample: a non-empty sector set whose priorities sum to
zero makes the selection step fail (the code computes `weights / 0`, whose
NaN probabilities make `np.random.choice` raise `ValueError`), rather than
fall back to uniform selection. -/
theorem select_sector_fails_on_zero_sum :
    select_sector [⟨0, 45, 0⟩] (1 / 2) = none := by
  simp [select_sector]

/-- Claim C7, amended: sector selection from a set whose priorities sum to
zero always fails — the normalization divides by zero and the weighted draw
raises; no uniform fallback exists in the code. -/
theorem select_sector_zero_sum_always_fails (sectors : List SectorConfig)
    (r : ℝ) (h : (sectors.map SectorConfig.priority).sum = 0) :
    select_sector sectors r = none := by
  simp [select_sector, h]

/-- Witness for `select_sector_zero_sum_always_fails` at the concrete
two-sector set `[⟨0, 45, 0⟩, ⟨90, 30, 0⟩]` and draw `1/3`. -/
theorem select_sector_zero_sum_witness :
    select_sector [⟨0, 45, 0⟩, ⟨90, 30, 0⟩] (1 / 3) = none :=
  select_sector_zero_sum_always_fails [⟨0, 45, 0⟩, ⟨90, 30, 0⟩] (1 / 3)
    (by simp)

/-- The sample point at parameter `k/9` on the segment `(x1,y1) → (x2,y2)` is
the sample point at parameter `(9-k)/9` on the reversed segment: the ten
`linspace` points form the same set in either direction. -/
theorem mem_segPoints_swap {x1 y1 x2 y2 : ℚ} {q : ℚ × ℚ}
    (hq : q ∈ segPoints x1 y1 x2 y2) : q ∈ segPoints x2 y2 x1 y1 := by
  rw [segPoints, List.mem_map] at hq
  obtain ⟨k, hkmem, hfk⟩ := hq
  rw [List.mem_range] at hkmem
  rw [segPoints, List.mem_map]
  have h9 : k ≤ 9 := by omega
  refine ⟨9 - k, List.mem_range.mpr (by omega), ?_⟩
  rw [← hfk]
  unfold segPoint
  rw [Nat.cast_sub h9]
  simp only [Prod.mk.injEq]
  constructor <;> · push_cast; ring

/-- Claim C10: confirmed. `is_collision_free` is symmetric in its endpoints:
reversing the segment permutes the ten sample points (`k ↦ 9 - k`), so the
same point set is tested against every obstacle. -/
theorem is_collision_free_symm (obstacles : List Obstacle) (x1 y1 x2 y2 : ℚ) :
    is_collision_free obstacles x1 y1 x2 y2
      = is_collision_free obstacles x2 y2 x1 y1 := by
  have inner : ∀ o : Obstacle,
      ((segPoints x1 y1 x2 y2).all fun p => !(pointHits p.1 p.2 o))
        = ((segPoints x2 y2 x1 y1).all fun p => !(pointHits p.1 p.2 o)) := by
    intro o
    rw [Bool.eq_iff_iff]
    simp only [List.all_eq_true]
    exact ⟨fun h p hp => h p (mem_segPoints_swap hp),
           fun h p hp => h p (mem_segPoints_swap hp)⟩
  unfold is_collision_free
  induction obstacles with
  | nil => rfl
  | cons o os ih => simp only [List.all_cons, inner o, ih]

/-- Claim C8: confirmed. Whenever the rejection loop of `sample_in_sector`
terminates and returns a point, that point satisfies the bound test that let
it escape the loop. -/
theorem sample_in_sector_stays_in_bounds (bounds : ℝ × ℝ × ℝ × ℝ)
    (origin : ℝ × ℝ) (sector : SectorConfig) (draws : List (ℝ × ℝ))
    (p : ℝ × ℝ) (h : sample_in_sector bounds origin sector draws = some p) :
    inBounds bounds p := by
  induction draws with
  | nil => simp [sample_in_sector] at h
  | cons du rest ih =>
    obtain ⟨d, u⟩ := du
    simp only [sample_in_sector] at h
    by_cases hc : inBounds bounds (sampleCandidate origin sector d u)
    · rw [if_pos hc] at h
      injection h with h
      rw [← h]
      exact hc
    · rw [if_neg hc] at h
      exact ih h

/-- Witness for `sample_in_sector_stays_in_bounds`: with bounds
`(0, 0, 10, 10)`, origin `(0, 0)` and the single draw `(0, 0)`, the sampler
returns `(0, 0)`, which lies within bounds. -/
theorem sample_in_sector_witness : inBounds (0, 0, 10, 10) (0, 0) := by
  have hcand : sampleCandidate ((0 : ℝ), (0 : ℝ)) ⟨0, 360, 1⟩ 0 0 = (0, 0) := by
    simp [sampleCandidate]
  have hs : sample_in_sector ((0 : ℝ), (0 : ℝ), (10 : ℝ), (10 : ℝ)) (0, 0)
      ⟨0, 360, 1⟩ [(0, 0)] = some (0, 0) := by
    rw [sample_in_sector, hcand, if_pos]
    constructor
    · exact le_refl _
    constructor
    · norm_num
    constructor
    · exact le_refl _
    · norm_num
  exact sample_in_sector_stays_in_bounds _ _ _ _ _ hs

/-- The tree invariant holds for the freshly constructed planner. -/
theorem treeInv_init (start : ℚ × ℚ) : TreeInv start (initState start).nodes := by
  refine ⟨by simp [initState], by simp [initState], ?_⟩
  intro i hi hlen
  simp [initState] at hlen
  omega

/-- Appending a node whose parent index points into the existing tree
preserves the tree invariant. -/
theorem treeInv_concat {start : ℚ × ℚ} {nodes : List Node}
    (inv : TreeInv start nodes) (n : Node) (q : ℕ)
    (hq : n.parent_id = some q) (hlt : q < nodes.length) :
    TreeInv start (nodes ++ [n]) := by
  obtain ⟨hpos, hhead, hpar⟩ := inv
  refine ⟨?_, ?_, ?_⟩
  · simp only [List.length_append]
    omega
  · rw [List.getD_append _ _ _ _ hpos]
    exact hhead
  · intro i hi hlen
    simp only [List.length_append, List.length_singleton] at hlen
    rcases Nat.lt_or_ge i nodes.length with hlti | hgei
    · obtain ⟨r, hr, hri⟩ := hpar i hi hlti
      exact ⟨r, by rw [List.getD_append _ _ _ _ hlti]; exact hr, hri⟩
    · have hieq : i = nodes.length := by omega
      subst hieq
      refine ⟨q, ?_, hlt⟩
      rw [List.getD_append_right _ _ _ _ hgei, Nat.sub_self]
      exact hq

/-- One planner iteration preserves the tree invariant: both possible appends
(the new node, then possibly the goal node) carry a parent index strictly
below their own index. -/
theorem treeInv_planStep (obstacles : List Obstacle) (goal : ℚ × ℚ)
    {start : ℚ × ℚ} {s : PlanState} (inv : TreeInv start s.nodes) (p : ℚ × ℚ) :
    TreeInv start (planStep obstacles goal s p).nodes := by
  unfold planStep
  split
  · exact inv
  · dsimp only
    split
    · split
      · have h1 : TreeInv start (s.nodes ++ [⟨p.1, p.2, some (s.nodes.length - 1)⟩]) :=
          treeInv_concat inv _ _ rfl (by have := inv.1; omega)
        exact treeInv_concat h1 _ _ rfl
          (by simp only [List.length_append, List.length_singleton]; omega)
      · exact treeInv_concat inv _ _ rfl (by have := inv.1; omega)
    · exact inv

/-- Under the tree invariant, the parent-chain walk from any tree index
terminates before exhausting its fuel: each step strictly decreases the
index, and the root has no parent. -/
theorem walk_isSome_of_treeInv {start : ℚ × ℚ} {nodes : List Node}
    (inv : TreeInv start nodes) :
    ∀ fuel i, i < nodes.length → i < fuel →
      (walkParents nodes fuel (nodes.getD i default)).isSome := by
  intro fuel
  induction fuel with
  | zero => intro i _ hf; omega
  | succ f ih =>
    intro i hlen hf
    cases hpid : (nodes.getD i default).parent_id with
    | none => simp only [walkParents, hpid, Option.isSome_some]
    | some q =>
      have hipos : 0 < i := by
        rcases Nat.eq_zero_or_pos i with h0 | h0
        · subst h0
          rw [inv.2.1] at hpid
          simp at hpid
        · exact h0
      obtain ⟨r, hr, hri⟩ := inv.2.2 i hipos hlen
      rw [hpid] at hr
      injection hr with hr
      subst hr
      simp only [walkParents, hpid, Option.isSome_map']
      exact ih q (Nat.lt_trans hri hlen) (by omega)

/-- Claim C9: confirmed. In every reachable planner state (including the
state in which the goal node has just been appended), the tree is non-empty,
index 0 holds the parentless start node, every later node's parent index is
strictly smaller than its own index, and consequently the parent-chain walk
of `extract_path`, started from the last node, terminates within
`len(nodes)` steps. -/
theorem reachable_tree_parent_indices_decrease (obstacles : List Obstacle)
    (start goal : ℚ × ℚ) (s : PlanState)
    (h : Reachable obstacles start goal s) :
    TreeInv start s.nodes ∧
    (walkParents s.nodes s.nodes.length
        (s.nodes.getD (s.nodes.length - 1) default)).isSome := by
  have inv : TreeInv start s.nodes := by
    induction h with
    | init => exact treeInv_init start
    | step s' p _ ih => exact treeInv_planStep _ _ ih p
  refine ⟨inv, walk_isSome_of_treeInv inv s.nodes.length (s.nodes.length - 1)
    ?_ ?_⟩
  · have := inv.1; omega
  · have := inv.1; omega

/-- Witness for `reachable_tree_parent_indices_decrease` at the concrete
two-iteration run ending in `exS2`. -/
theorem reachable_tree_invariant_witness :
    TreeInv (0, 0) exS2.nodes ∧
    (walkParents exS2.nodes exS2.nodes.length
        (exS2.nodes.getD (exS2.nodes.length - 1) default)).isSome :=
  reachable_tree_parent_indices_decrease exObs (0, 0) (10, 0) exS2
    (Reachable.step _ _ (Reachable.step _ _ Reachable.init))

/-- Claim C4: refuted on the code (the code itself is at fault). At the
sector with centre angle 180 (degrees), zero span, distance draw 1 and
offset draw 0 from origin `(0, 0)`, the code computes `cos 180` — the angle
is fed to `np.cos`/`np.sin` without degree-to-radian conversion — whereas
the spec's formula converts first and yields `cos π = -1`; the two differ,
since `cos 180 = -1` would force `π = 360/(2n)` to be rational. -/
theorem sample_angle_not_degree_converted :
    (sampleCandidate (0, 0) ⟨180, 0, 1⟩ 1 0).1 = Real.cos 180 ∧
    (specSampleCandidate (0, 0) ⟨180, 0, 1⟩ 1 0).1 = -1 ∧
    Real.cos 180 ≠ -1 := by
  refine ⟨?_, ?_, ?_⟩
  · simp [sampleCandidate]
  · have h : ((180 : ℝ) + 0) * Real.pi / 180 = Real.pi := by ring
    simp [specSampleCandidate, h, Real.cos_pi]
  · intro hc
    have h2 : Real.cos (2 * 180) = 1 := by
      rw [Real.cos_two_mul, hc]
      norm_num
    rw [Real.cos_eq_one_iff] at h2
    obtain ⟨n, hn⟩ := h2
    have hn0 : (n : ℝ) ≠ 0 := by
      intro h0
      rw [h0] at hn
      norm_num at hn
    have hpin : (n : ℝ) * Real.pi = 2 * 180 / 2 := by
      linear_combination hn / 2
    have hpi : Real.pi = ((180 / n : ℚ) : ℝ) := by
      push_cast
      rw [eq_div_iff hn0]
      linear_combination hpin
    exact irrational_pi ⟨180 / n, hpi.symm⟩

end RRTPlanner
